import Mathlib

/-!
Shallow embedding of the scene-editor core of the raytrace repository
(`editor/main.js`): the entity registry, the visual/canonical sync engine and
the scene-document codec.  JavaScript numbers are modelled as exact rationals
(`ℚ`); the arithmetic performed by the editor (sums, halving, `Math.max`,
`Math.min`) is exact on doubles up to rounding, and every claim states its
tolerance, so the rational model is faithful for the properties below.
Non-finite JavaScript numbers, where a claim depends on them, are modelled
separately by `JsNumber`.
-/

namespace RayEdit

/-- Mirrors `THREE.Vector3`: a 3-vector of (rationally modelled) numbers. -/
@[ext]
structure V3 where
  x : ℚ
  y : ℚ
  z : ℚ
deriving DecidableEq

/-- An `{r, g, b}` colour triple as stored in entity canonical data and in
`THREE.Color` (material colours, light colours). -/
@[ext]
structure Color where
  r : ℚ
  g : ℚ
  b : ℚ
deriving DecidableEq

/-- The three coordinate axes used by the position / dimension fields. -/
inductive Axis
  | x
  | y
  | z
deriving DecidableEq

/-- The three colour channels used by the light intensity fields. -/
inductive Channel
  | r
  | g
  | b
deriving DecidableEq

/-- Writing one coordinate of a vector, as the `axisUpdater` closures do
(`main.js` 354-359). -/
def V3.setAxis (v : V3) : Axis → ℚ → V3
  | .x, q => { v with x := q }
  | .y, q => { v with y := q }
  | .z, q => { v with z := q }

/-- Reading one coordinate of a vector. -/
def V3.axGet (v : V3) : Axis → ℚ
  | .x => v.x
  | .y => v.y
  | .z => v.z

/-- Writing one channel of a colour. -/
def Color.setChannel (c : Color) : Channel → ℚ → Color
  | .r, q => { c with r := q }
  | .g, q => { c with g := q }
  | .b, q => { c with b := q }

/-- Entity ids.  `generateId` (`main.js` 88-91) renders the id as the string
`tag-N`; the components are kept unrendered here so the proofs can speak about
the counter.  The rendering is injective because the three tags contain no
digits or dashes. -/
structure EntityId where
  tag : String
  num : ℕ
deriving DecidableEq

/-- Kind-specific canonical data of an entity (`entity.data` in `main.js`):
sphere `{center, radius, color}`, cube `{center, size, color}`, light
`{position, intensity, direction}`. -/
inductive EntityData
  | sphere (center : V3) (radius : ℚ) (color : Color)
  | cube (center : V3) (size : V3) (color : Color)
  | light (position : V3) (intensity : Color) (direction : V3)
deriving DecidableEq

/-- The visual handle of an entity: the THREE mesh/group node's transform and
material, plus the base geometry parameters it was constructed with
(`geometry.parameters.width/height/depth` for a `BoxGeometry`; a
`SphereGeometry`'s base radius is stored in `geomW`).  For a light entity the
node is a `Group` whose transform is `position`/`scale`, and `materialColor`
models `point.color` of the contained `THREE.PointLight`; the geometry fields
are unused for lights. -/
structure Visual where
  position : V3
  scale : V3
  materialColor : Color
  geomW : ℚ
  geomH : ℚ
  geomD : ℚ
deriving DecidableEq

/-- One live entity: id, visual handle, canonical data.  The JS object also
carries `label` and `kind`; `kind` is recoverable from `data` and `label` is
display-only, so neither is modelled separately. -/
structure Entity where
  id : EntityId
  mesh : Visual
  data : EntityData
deriving DecidableEq

/-- The `cameraState` record (`main.js` 59-66). -/
structure CameraState where
  position : V3
  lookAt : V3
  up : V3
  fov : ℚ
  width : ℚ
  height : ℚ
deriving DecidableEq

/-- The mutable editor-core state: the `entities` array, the `selectedEntity`
pointer (modelled by id; the invariant proofs show a selected id is always
live), the `idCounter`, the `cameraState`, and the object-list `<option>`
values.  `allocatedIds` and `disposed` are ghost logs recording every id ever
returned by `generateId` and every mesh passed to `disposeObject`. -/
structure EditorState where
  entities : List Entity
  selected : Option EntityId
  idCounter : ℕ
  cameraState : CameraState
  options : List EntityId
  allocatedIds : List EntityId
  disposed : List EntityId
deriving DecidableEq

/-- The initial camera state: `camera.position.set(8, 6, 8)`,
`orbit.target.set(0, 1, 0)`, default THREE up `(0, 1, 0)`, fov 60 from
`PerspectiveCamera(60, ...)`, output 640×480. -/
def initCamera : CameraState :=
  { position := ⟨8, 6, 8⟩
    lookAt := ⟨0, 1, 0⟩
    up := ⟨0, 1, 0⟩
    fov := 60
    width := 640
    height := 480 }

/-- The state right after module initialisation: no entities, no selection,
`idCounter = 1`. -/
def initState : EditorState :=
  { entities := []
    selected := none
    idCounter := 1
    cameraState := initCamera
    options := []
    allocatedIds := []
    disposed := [] }

/-- `generateId` (`main.js` 88-91): pre-increment the counter, render
`tag-counter`.  Also appends to the ghost allocation log. -/
def generateId (tag : String) (s : EditorState) : EntityId × EditorState :=
  let n := s.idCounter + 1
  (⟨tag, n⟩,
   { s with idCounter := n, allocatedIds := s.allocatedIds ++ [⟨tag, n⟩] })

/-- `THREE.Color` built from a packed hex value, and `hexToColor`
(`main.js` 449-456): channels `(value >> 16) & 255`, `(value >> 8) & 255`,
`value & 255`, divided by 255. -/
def hexToColor (value : ℕ) : Color :=
  let rb : ℕ := value / 65536 % 256
  let gb : ℕ := value / 256 % 256
  let bb : ℕ := value % 256
  ⟨(rb : ℚ) / 255, (gb : ℚ) / 255, (bb : ℚ) / 255⟩

/-- `selectEntity` (`main.js` 232-253): find the entity with the given id;
a missing id (or a `null` argument) clears the selection.  The DOM/gizmo side
effects (attach/detach, form refresh) carry no core state. -/
def selectEntity (s : EditorState) (idq : Option EntityId) : EditorState :=
  match idq.bind (fun i => s.entities.find? (fun e => decide (e.id = i))) with
  | none => { s with selected := none }
  | some e => { s with selected := some e.id }

/-- `removeEntity` (`main.js` 187-212): splice the entity out of `entities`
(no-op when absent), dispose its mesh (`disposeObject`, logged in the ghost
`disposed` list), drop its `<option>` entries, and clear the selection if it
was the selected entity. -/
def removeEntity (s : EditorState) (ent : Entity) : EditorState :=
  { s with
    entities := s.entities.erase ent
    disposed := s.disposed ++ [ent.id]
    options := s.options.filter (fun o => decide (¬ o = ent.id))
    selected := if s.selected = some ent.id then none else s.selected }

/-- `createSphereEntity` (`main.js` 93-118): radius 1, base geometry radius 1,
material `0x88ccff`, position `(0, radius, 0)`, canonical colour literal
`{r: 0.533, g: 0.8, b: 1.0}`; then list insertion and selection. -/
def createSphereEntity (s : EditorState) : EditorState :=
  let p := generateId "sphere" s
  let id := p.1
  let s := p.2
  let e : Entity :=
    { id := id
      mesh :=
        { position := ⟨0, 1, 0⟩
          scale := ⟨1, 1, 1⟩
          materialColor := hexToColor 0x88ccff
          geomW := 1, geomH := 1, geomD := 1 }
      data := .sphere ⟨0, 1, 0⟩ 1 ⟨533/1000, 8/10, 1⟩ }
  let s := { s with entities := s.entities ++ [e], options := s.options ++ [id] }
  selectEntity s (some id)

/-- `createCubeEntity` (`main.js` 120-143): size 1.5 per axis, base
`BoxGeometry(1.5, 1.5, 1.5)`, material `0xffc164`, position `(0, size/2, 0)`,
canonical colour literal `{r: 1.0, g: 0.761, b: 0.392}`. -/
def createCubeEntity (s : EditorState) : EditorState :=
  let p := generateId "cube" s
  let id := p.1
  let s := p.2
  let e : Entity :=
    { id := id
      mesh :=
        { position := ⟨0, 3/4, 0⟩
          scale := ⟨1, 1, 1⟩
          materialColor := hexToColor 0xffc164
          geomW := 3/2, geomH := 3/2, geomD := 3/2 }
      data := .cube ⟨0, 3/4, 0⟩ ⟨3/2, 3/2, 3/2⟩ ⟨1, 761/1000, 392/1000⟩ }
  let s := { s with entities := s.entities ++ [e], options := s.options ++ [id] }
  selectEntity s (some id)

/-- `createLightEntity` (`main.js` 145-177): a group at `(3, 5, 3)` holding a
marker and a white `PointLight` (its colour is `materialColor` here); the
group node carries no geometry parameters, so the `geom` fields are left at 1
and are never read for lights. -/
def createLightEntity (s : EditorState) : EditorState :=
  let p := generateId "light" s
  let id := p.1
  let s := p.2
  let e : Entity :=
    { id := id
      mesh :=
        { position := ⟨3, 5, 3⟩
          scale := ⟨1, 1, 1⟩
          materialColor := hexToColor 0xffffff
          geomW := 1, geomH := 1, geomD := 1 }
      data := .light ⟨3, 5, 3⟩ ⟨1, 1, 1⟩ ⟨0, -1, 0⟩ }
  let s := { s with entities := s.entities ++ [e], options := s.options ++ [id] }
  selectEntity s (some id)

/-- Applies an edit closure to the selected entity (the property-panel
handlers of `refreshEntityForm` close over `selectedEntity`). -/
def updateSelected (s : EditorState) (f : Entity → Entity) : EditorState :=
  match s.selected with
  | none => s
  | some i =>
      { s with entities := s.entities.map (fun e => if e.id = i then f e else e) }

/-- `updateEntityFromTransform` (`main.js` 381-387): re-derive the canonical
center (or light position) from the visual handle's transform. -/
def syncPositionFromMesh (e : Entity) : Entity :=
  match e.data with
  | .sphere _ r c => { e with data := .sphere e.mesh.position r c }
  | .cube _ sz c => { e with data := .cube e.mesh.position sz c }
  | .light _ i d => { e with data := .light e.mesh.position i d }

/-- `setEntityPosition` with an `axisUpdater` (`main.js` 354-379): write the
new coordinate into the visual transform, then read the canonical
center/position back from it.  (For lights the marker and emitter keep their
local zero offsets, so the group transform alone carries the position.) -/
def setEntityPosition (s : EditorState) (ax : Axis) (v : ℚ) : EditorState :=
  updateSelected s (fun e =>
    let e := { e with mesh := { e.mesh with position := e.mesh.position.setAxis ax v } }
    syncPositionFromMesh e)

/-- The `objectChange` handler of the transform gizmo (`main.js` 28-34)
together with the drag itself: the gizmo writes the dragged mesh position
directly, then `updateEntityFromTransform` re-reads it into canonical data. -/
def gizmoDragCommit (s : EditorState) (p : V3) : EditorState :=
  updateSelected s (fun e =>
    syncPositionFromMesh { e with mesh := { e.mesh with position := p } })

/-- The Radius field handler for a selected sphere (`main.js` 273-279):
floor at 0.1, uniform scale `radius / 1.0`, re-assert the mesh's `y` from the
canonical center. -/
def applyRadiusEdit (v : ℚ) (e : Entity) : Entity :=
  match e.data with
  | .sphere center _ color =>
      let radius := max (1/10) v
      let uniformScale := radius / 1
      { e with
        data := .sphere center radius color
        mesh := { e.mesh with
          scale := ⟨uniformScale, uniformScale, uniformScale⟩
          position := { e.mesh.position with y := center.y } } }
  | _ => e

/-- The Width/Height/Depth field handlers for a selected cube
(`main.js` 292-306): floor at 0.1 and scale relative to the base geometry
parameter of that axis. -/
def applyExtentEdit (ax : Axis) (v : ℚ) (e : Entity) : Entity :=
  match e.data with
  | .cube center size color =>
      let nv := max (1/10) v
      match ax with
      | .x =>
          { e with
            data := .cube center { size with x := nv } color
            mesh := { e.mesh with scale := { e.mesh.scale with x := nv / e.mesh.geomW } } }
      | .y =>
          { e with
            data := .cube center { size with y := nv } color
            mesh := { e.mesh with scale := { e.mesh.scale with y := nv / e.mesh.geomH } } }
      | .z =>
          { e with
            data := .cube center { size with z := nv } color
            mesh := { e.mesh with scale := { e.mesh.scale with z := nv / e.mesh.geomD } } }
  | _ => e

/-- The colour field handler for a selected sphere or cube
(`main.js` 281-287, 308-314): canonical colour := `hexToColor(hex)`,
material colour := `new THREE.Color(hex)` — the same channel decomposition. -/
def applyColorEdit (hex : ℕ) (e : Entity) : Entity :=
  match e.data with
  | .sphere center radius _ =>
      { e with
        data := .sphere center radius (hexToColor hex)
        mesh := { e.mesh with materialColor := hexToColor hex } }
  | .cube center size _ =>
      { e with
        data := .cube center size (hexToColor hex)
        mesh := { e.mesh with materialColor := hexToColor hex } }
  | .light .. => e

/-- The R/G/B intensity field handlers for a selected light
(`main.js` 319-333): floor the edited channel at 0, then push all three
canonical channels into `light.color`. -/
def applyIntensityEdit (ch : Channel) (v : ℚ) (e : Entity) : Entity :=
  match e.data with
  | .light pos intensity dir =>
      let i := intensity.setChannel ch (max 0 v)
      { e with
        data := .light pos i dir
        mesh := { e.mesh with materialColor := i } }
  | _ => e

/-- The direction field handlers for a selected light (`main.js` 336-347):
canonical data only, no visual counterpart. -/
def applyDirectionEdit (ax : Axis) (v : ℚ) (e : Entity) : Entity :=
  match e.data with
  | .light pos i dir => { e with data := .light pos i (dir.setAxis ax v) }
  | _ => e

/-- The delete button handler (`main.js` 614-621): nothing happens without a
selection; otherwise clear the selection and remove the (live, by invariant)
selected entity. -/
def deleteSelected (s : EditorState) : EditorState :=
  match s.selected with
  | none => s
  | some i =>
      match s.entities.find? (fun e => decide (e.id = i)) with
      | some e => removeEntity (selectEntity s none) e
      | none => s

/-- The registry contract `delete(id)` as the editor's callers realise it:
look up the live entity bearing the id and `removeEntity` it; an id naming no
live entity leaves the state untouched. -/
def deleteEntityById (s : EditorState) (i : EntityId) : EditorState :=
  match s.entities.find? (fun e => decide (e.id = i)) with
  | some e => removeEntity s e
  | none => s

/-! ### Document codec -/

/-- `clamp01` (`main.js` 458-460). -/
def clamp01 (v : ℚ) : ℚ := max 0 (min 1 v)

/-- `Math.round`: round half toward positive infinity. -/
def jsRound (q : ℚ) : ℤ := ⌊q + 1/2⌋

/-- The channel bytes produced by `colorToHex` (`main.js` 442-447) for the
colour picker widgets: each channel clamped to `[0, 1]` and scaled to a byte.
This is the only clamping site on the colour path. -/
def colorToHexBytes (c : Color) : ℤ × ℤ × ℤ :=
  (jsRound (clamp01 c.r * 255), jsRound (clamp01 c.g * 255), jsRound (clamp01 c.b * 255))

/-- `colorToArray` (`main.js` 543-545): emits the raw channels `[r, g, b]`
with no clamping. -/
def colorToArray (c : Color) : Color := c

/-- A wire object record (`"objects"` entries of the scene document).
`unknownType` stands for any record whose `type` tag is neither `"sphere"`
nor `"cube"`. -/
inductive ObjectRec
  | sphere (center : V3) (radius : ℚ) (color : Color)
  | cube (min max : V3) (color : Color)
  | unknownType
deriving DecidableEq

/-- A wire light record; optional fields model JSON fields that may be
absent.  `unknownKind` stands for a record whose `type` is not `"point"`. -/
inductive LightRec
  | point (position : Option V3) (intensity : Option Color) (direction : Option V3)
  | unknownKind
deriving DecidableEq

/-- The wire camera block; every field may be absent in an imported
document. -/
structure CameraRec where
  position : Option V3
  look_at : Option V3
  up : Option V3
  fov : Option ℚ
  width : Option ℚ
  height : Option ℚ
deriving DecidableEq

/-- A parsed scene document. -/
structure SceneDoc where
  camera : Option CameraRec
  objects : List ObjectRec
  lights : List LightRec
deriving DecidableEq

/-- Encoding of one entity into an object record, per `buildSceneJson`
(`main.js` 476-506): spheres emit center/radius/colour, cubes emit
`min = center - size/2`, `max = center + size/2`; lights are not objects. -/
def encodeObject (e : Entity) : Option ObjectRec :=
  match e.data with
  | .sphere center radius color => some (.sphere center radius (colorToArray color))
  | .cube center size color =>
      let half : V3 := ⟨size.x / 2, size.y / 2, size.z / 2⟩
      some (.cube
        ⟨center.x - half.x, center.y - half.y, center.z - half.z⟩
        ⟨center.x + half.x, center.y + half.y, center.z + half.z⟩
        (colorToArray color))
  | .light .. => none

/-- Encoding of one entity into a light record, per `buildSceneJson`
(`main.js` 507-522). -/
def encodeLight (e : Entity) : Option LightRec :=
  match e.data with
  | .light pos intensity dir => some (.point (some pos) (some intensity) (some dir))
  | _ => none

/-- `buildSceneJson` (`main.js` 472-537): camera block from `cameraState`,
objects and lights from the entity list in insertion order. -/
def buildSceneJson (s : EditorState) : SceneDoc :=
  { camera := some
      { position := some s.cameraState.position
        look_at := some s.cameraState.lookAt
        up := some s.cameraState.up
        fov := some s.cameraState.fov
        width := some s.cameraState.width
        height := some s.cameraState.height }
    objects := s.entities.filterMap encodeObject
    lights := s.entities.filterMap encodeLight }

/-- The camera part of `loadSceneFromJson` (`main.js` 705-720).  Reading
`cam.position[0]` or `cam.look_at[0]` of a missing field throws a `TypeError`
(second component `true`), after any mutations already made; `up` is applied
when present; `fov`/`width`/`height` are applied only when present *and*
truthy (zero is falsy in JavaScript). -/
def loadCameraState (cs : CameraState) (cam : CameraRec) : CameraState × Bool :=
  match cam.position with
  | none => (cs, true)
  | some p =>
      let cs := { cs with position := p }
      match cam.look_at with
      | none => (cs, true)
      | some la =>
          let cs := { cs with lookAt := la }
          let cs := match cam.up with
            | some u => { cs with up := u }
            | none => cs
          let cs := match cam.fov with
            | some q => if q ≠ 0 then { cs with fov := q } else cs
            | none => cs
          let cs := match cam.width with
            | some q => if q ≠ 0 then { cs with width := q } else cs
            | none => cs
          let cs := match cam.height with
            | some q => if q ≠ 0 then { cs with height := q } else cs
            | none => cs
          (cs, false)

/-- The object part of `loadSceneFromJson` (`main.js` 725-777): spheres get a
unit base geometry scaled by the radius; cubes get a base geometry of the full
extents (`max - min`) at scale 1, centred at `(min + max)/2`; records with an
unknown type tag are skipped. -/
def loadObject (s : EditorState) (o : ObjectRec) : EditorState :=
  match o with
  | .sphere center radius color =>
      let p := generateId "sphere" s
      let id := p.1
      let s := p.2
      let e : Entity :=
        { id := id
          mesh :=
            { position := center
              scale := ⟨radius, radius, radius⟩
              materialColor := color
              geomW := 1, geomH := 1, geomD := 1 }
          data := .sphere center radius color }
      { s with entities := s.entities ++ [e], options := s.options ++ [id] }
  | .cube mn mx color =>
      let w := mx.x - mn.x
      let h := mx.y - mn.y
      let d := mx.z - mn.z
      let center : V3 := ⟨(mn.x + mx.x) / 2, (mn.y + mx.y) / 2, (mn.z + mx.z) / 2⟩
      let p := generateId "cube" s
      let id := p.1
      let s := p.2
      let e : Entity :=
        { id := id
          mesh :=
            { position := center
              scale := ⟨1, 1, 1⟩
              materialColor := color
              geomW := w, geomH := h, geomD := d }
          data := .cube center ⟨w, h, d⟩ color }
      { s with entities := s.entities ++ [e], options := s.options ++ [id] }
  | .unknownType => s

/-- The light part of `loadSceneFromJson` (`main.js` 779-823): missing
position defaults to `[0, 5, 0]`, missing intensity channels to 1, missing
direction to `[0, -1, 0]`; the point light's colour is set from the canonical
intensity. -/
def loadLight (s : EditorState) (l : LightRec) : EditorState :=
  match l with
  | .point posq intq dirq =>
      let position := posq.getD ⟨0, 5, 0⟩
      let intensity := intq.getD ⟨1, 1, 1⟩
      let direction := dirq.getD ⟨0, -1, 0⟩
      let p := generateId "light" s
      let id := p.1
      let s := p.2
      let e : Entity :=
        { id := id
          mesh :=
            { position := position
              scale := ⟨1, 1, 1⟩
              materialColor := intensity
              geomW := 1, geomH := 1, geomD := 1 }
          data := .light position intensity direction }
      { s with entities := s.entities ++ [e], options := s.options ++ [id] }
  | .unknownKind => s

/-- The clearing loop at the top of `loadSceneFromJson` (`main.js` 700-703):
`removeEntity` applied to a snapshot of the entity list. -/
def clearEntities (s : EditorState) : EditorState :=
  s.entities.foldl removeEntity s

/-- The tail of `loadSceneFromJson` (`main.js` 725-832): populate objects and
lights, then select the last entity (or clear the selection). -/
def finishLoad (s : EditorState) (d : SceneDoc) : EditorState :=
  let s := d.objects.foldl loadObject s
  let s := d.lights.foldl loadLight s
  match s.entities.getLast? with
  | some e => selectEntity s (some e.id)
  | none => selectEntity s none

/-- `loadSceneFromJson` (`main.js` 699-832).  The boolean records whether a
`TypeError` escaped (and was caught by the import handler); crucially the
entity list is cleared *before* the camera block is validated, so the
returned state reflects all mutations made up to the throw point. -/
def loadSceneFromJson (s : EditorState) (d : SceneDoc) : EditorState × Bool :=
  let s := clearEntities s
  match d.camera with
  | some cam =>
      let pr := loadCameraState s.cameraState cam
      let s := { s with cameraState := pr.1 }
      if pr.2 then (s, true) else (finishLoad s d, false)
  | none => (finishLoad s d, false)

/-- Outcome of `JSON.parse` on the imported file text. -/
inductive ParsedText
  | malformed
  | ok (d : SceneDoc)

/-- The import input change handler (`main.js` 681-697): a `JSON.parse`
failure is alerted with no state change; a parsed document is handed to
`loadSceneFromJson`, whose own `TypeError` lands in the same catch block
after the mutations it already made. -/
def fileChangeHandler (s : EditorState) : ParsedText → EditorState
  | .malformed => s
  | .ok d => (loadSceneFromJson s d).1

/-! ### JavaScript non-finite numbers (numeric field commits) -/

/-- A JavaScript number as seen by `parseFloat`/`Number`: NaN, the two
infinities, or a finite value. -/
inductive JsNumber
  | nan
  | posInf
  | negInf
  | val (q : ℚ)
deriving DecidableEq

/-- `Math.max` on JavaScript numbers. -/
def jsMax (a b : JsNumber) : JsNumber :=
  match a, b with
  | .nan, _ => .nan
  | _, .nan => .nan
  | .posInf, _ => .posInf
  | _, .posInf => .posInf
  | .negInf, c => c
  | c, .negInf => c
  | .val p, .val q => .val (max p q)

/-- The `createNumberField` change handler (`main.js` 418-423): the parsed
value is rejected only when `Number.isNaN(parsed)`, so infinities pass
through to `onChange`. -/
def numberFieldCommit (parsed : JsNumber) : Option JsNumber :=
  if parsed = .nan then none else some parsed

/-- The radius actually stored after committing a string in the sphere
Radius field: the handler body runs `Math.max(0.1, value)` on whatever
`numberFieldCommit` lets through. -/
def radiusAfterCommit (current : ℚ) (parsed : JsNumber) : JsNumber :=
  match numberFieldCommit parsed with
  | none => .val current
  | some v => jsMax (.val (1/10)) v

/-- `parseNumber` (`main.js` 462-465), used by the camera form: falls back to
the prior value unless the parse is finite. -/
def jsParseNumber (v : JsNumber) (fallback : ℚ) : ℚ :=
  match v with
  | .val q => q
  | _ => fallback

/-! ### The operation alphabet -/

/-- One externally observable registry operation, as dispatched by the UI
event handlers. -/
inductive Op
  | addSphere
  | addCube
  | addLight
  | setPos (ax : Axis) (v : ℚ)
  | setRad (v : ℚ)
  | setExt (ax : Axis) (v : ℚ)
  | setCol (hex : ℕ)
  | setInt (ch : Channel) (v : ℚ)
  | setDir (ax : Axis) (v : ℚ)
  | gizmo (p : V3)
  | select (i : Option EntityId)
  | deleteSel
  | deleteById (i : EntityId)
  | importDoc (d : SceneDoc)

/-- Operation semantics. -/
def applyOp (s : EditorState) : Op → EditorState
  | .addSphere => createSphereEntity s
  | .addCube => createCubeEntity s
  | .addLight => createLightEntity s
  | .setPos ax v => setEntityPosition s ax v
  | .setRad v => updateSelected s (applyRadiusEdit v)
  | .setExt ax v => updateSelected s (applyExtentEdit ax v)
  | .setCol hex => updateSelected s (applyColorEdit hex)
  | .setInt ch v => updateSelected s (applyIntensityEdit ch v)
  | .setDir ax v => updateSelected s (applyDirectionEdit ax v)
  | .gizmo p => gizmoDragCommit s p
  | .select i => selectEntity s i
  | .deleteSel => deleteSelected s
  | .deleteById i => deleteEntityById s i
  | .importDoc d => (loadSceneFromJson s d).1

/-- A finite sequence of operations applied in order. -/
def applyOps (ops : List Op) (s : EditorState) : EditorState :=
  ops.foldl applyOp s

/-- The operations named by the dual-representation consistency property:
everything except a document import. -/
def Op.isEdit : Op → Bool
  | .importDoc _ => false
  | _ => true

/-! ### Predicates used by the claims -/

/-- Colour closeness within a tolerance, channelwise. -/
def closeColorB (a b : Color) (tol : ℚ) : Bool :=
  decide (|a.r - b.r| ≤ tol) && decide (|a.g - b.g| ≤ tol) && decide (|a.b - b.b| ≤ tol)

/-- Dual-representation consistency of one entity, as far as it actually
holds on the code: every geometric field of the canonical data coincides
exactly with the value derived from the visual node's transform and base
geometry, light intensity coincides exactly with the light's colour, and the
canonical colour agrees with the material colour within `1/200` (the default
entity colours are literal approximations of the default material hex). -/
def entitySyncB (e : Entity) : Bool :=
  match e.data with
  | .sphere center radius color =>
      decide (center = e.mesh.position) &&
      decide (e.mesh.geomW = 1) &&
      decide (radius = e.mesh.geomW * e.mesh.scale.x) &&
      decide (e.mesh.scale.y = e.mesh.scale.x) &&
      decide (e.mesh.scale.z = e.mesh.scale.x) &&
      closeColorB color e.mesh.materialColor (1/200)
  | .cube center size color =>
      decide (center = e.mesh.position) &&
      decide (0 < e.mesh.geomW) && decide (0 < e.mesh.geomH) && decide (0 < e.mesh.geomD) &&
      decide (size.x = e.mesh.geomW * e.mesh.scale.x) &&
      decide (size.y = e.mesh.geomH * e.mesh.scale.y) &&
      decide (size.z = e.mesh.geomD * e.mesh.scale.z) &&
      closeColorB color e.mesh.materialColor (1/200)
  | .light pos intensity _ =>
      decide (pos = e.mesh.position) &&
      decide (intensity = e.mesh.materialColor)

/-- A colour with all channels in `[0, 1]`. -/
def colorInRangeB (c : Color) : Bool :=
  decide (0 ≤ c.r) && decide (c.r ≤ 1) &&
  decide (0 ≤ c.g) && decide (c.g ≤ 1) &&
  decide (0 ≤ c.b) && decide (c.b ≤ 1)

/-- The canonical object colour of an entity is in `[0, 1]` (lights have no
object colour). -/
def entityColorsOKB (e : Entity) : Bool :=
  match e.data with
  | .sphere _ _ color => colorInRangeB color
  | .cube _ _ color => colorInRangeB color
  | .light .. => true

/-- Every emitted object record of a document has colour channels in
`[0, 1]`. -/
def objColorsInRangeB (d : SceneDoc) : Bool :=
  d.objects.all fun o =>
    match o with
    | .sphere _ _ c => colorInRangeB c
    | .cube _ _ c => colorInRangeB c
    | .unknownType => true

/-- The canonical radius of an entity, when it is a sphere. -/
def dataRadius (e : Entity) : Option ℚ :=
  match e.data with
  | .sphere _ r _ => some r
  | _ => none

/-- One canonical extent of an entity, when it is a cube. -/
def dataExtent (e : Entity) (ax : Axis) : Option ℚ :=
  match e.data with
  | .cube _ size _ => some (size.axGet ax)
  | _ => none

/-- Recogniser for sphere entities. -/
def isSphereB (e : Entity) : Bool :=
  match e.data with
  | .sphere .. => true
  | _ => false

/-- Recogniser for cube entities. -/
def isCubeB (e : Entity) : Bool :=
  match e.data with
  | .cube .. => true
  | _ => false

/-- A positive number field (the scene schema demands `width`/`height` to be
positive integers). -/
def posQ : Option ℚ → Bool
  | some q => decide (0 < q)
  | none => false

/-- A present, nonzero (JavaScript-truthy) number field; a zero `fov` denotes
a degenerate camera and is falsy on import (see the zero-field claim). -/
def nonzeroQ : Option ℚ → Bool
  | some q => decide (¬ q = 0)
  | none => false

/-- A camera block with every field present, a truthy field of view and
positive output dimensions. -/
def validCameraB (c : CameraRec) : Bool :=
  c.position.isSome && c.look_at.isSome && c.up.isSome &&
  nonzeroQ c.fov && posQ c.width && posQ c.height

/-- A known object record (sphere or cube with all fields). -/
def validObjectB : ObjectRec → Bool
  | .unknownType => false
  | _ => true

/-- A point light record with all fields present. -/
def validLightB : LightRec → Bool
  | .point p i d => p.isSome && i.isSome && d.isSome
  | .unknownKind => false

/-- A valid scene document in the sense of the spec schema: a complete camera
block with positive fov/width/height, only sphere/cube object records, only
complete point light records. -/
def validDocB (d : SceneDoc) : Bool :=
  (match d.camera with
   | some c => validCameraB c
   | none => false) &&
  d.objects.all validObjectB && d.lights.all validLightB

/-- The selection invariant: the selected entity, if any, is live. -/
def selLive (s : EditorState) : Prop :=
  s.selected = none ∨ ∃ e ∈ s.entities, s.selected = some e.id

/-- The registry well-formedness invariant maintained by every operation:
selected ids are live, live ids are pairwise distinct and bounded by the
counter, the ghost allocation log is strictly increasing and bounded, live
entities are allocated, and no live entity's mesh has ever been disposed. -/
structure Inv (s : EditorState) : Prop where
  sel : selLive s
  idsNodup : (s.entities.map fun e => e.id.num).Nodup
  idsBound : ∀ e ∈ s.entities, e.id.num ≤ s.idCounter
  allocChain : List.Chain' (fun a b : EntityId => a.num < b.num) s.allocatedIds
  allocBound : ∀ a ∈ s.allocatedIds, a.num ≤ s.idCounter
  liveAlloc : ∀ e ∈ s.entities, e.id ∈ s.allocatedIds
  dispBound : ∀ i ∈ s.disposed, i.num ≤ s.idCounter
  liveNotDisp : ∀ e ∈ s.entities, e.id ∉ s.disposed

/-! ### Helper lemmas -/

theorem selectEntity_entities (s : EditorState) (i : Option EntityId) :
    (selectEntity s i).entities = s.entities := by
  unfold selectEntity
  split <;> rfl

theorem selectEntity_cameraState (s : EditorState) (i : Option EntityId) :
    (selectEntity s i).cameraState = s.cameraState := by
  unfold selectEntity
  split <;> rfl

theorem removeEntity_cameraState (s : EditorState) (e : Entity) :
    (removeEntity s e).cameraState = s.cameraState := rfl

theorem foldl_removeEntity_clear :
    ∀ (l : List Entity) (s : EditorState), s.entities = l →
      (l.foldl removeEntity s).entities = [] ∧
      (l.foldl removeEntity s).cameraState = s.cameraState := by
  intro l
  induction l with
  | nil => intro s h; simpa using h
  | cons a t ih =>
      intro s h
      have h1 : (removeEntity s a).entities = t := by
        simp [removeEntity, h]
      have := ih (removeEntity s a) h1
      simpa [List.foldl, removeEntity_cameraState] using this

theorem clearEntities_entities (s : EditorState) : (clearEntities s).entities = [] :=
  (foldl_removeEntity_clear s.entities s rfl).1

theorem clearEntities_cameraState (s : EditorState) :
    (clearEntities s).cameraState = s.cameraState :=
  (foldl_removeEntity_clear s.entities s rfl).2

/-! ### C1 — failed imports and registry preservation -/

/-- C1 (amended): an import whose text does not parse is aborted with no state
change; but when the text parses and the camera block lacks `position` or
`look_at`, the `MalformedDocument` error (the caught `TypeError`) is raised
only *after* the registry has been cleared, so the failed import leaves an
empty registry rather than the prior scene. -/
theorem c1_amended (s : EditorState) (d : SceneDoc) (cam : CameraRec)
    (hc : d.camera = some cam) (hm : cam.position = none ∨ cam.look_at = none) :
    (loadSceneFromJson s d).2 = true ∧
    (loadSceneFromJson s d).1.entities = [] ∧
    fileChangeHandler s .malformed = s := by
  have hload : (loadCameraState (clearEntities s).cameraState cam).2 = true := by
    rcases hm with h | h
    · simp [loadCameraState, h]
    · cases hp : cam.position with
      | none => simp [loadCameraState, hp]
      | some p => simp [loadCameraState, hp, h]
  refine ⟨?_, ?_, rfl⟩ <;>
    simp [loadSceneFromJson, hc, hload, clearEntities_entities]

/-- Witness for `c1_amended` at a concrete malformed document. -/
theorem c1_amended_witness :
    (loadSceneFromJson initState ⟨some ⟨none, none, none, none, none, none⟩, [], []⟩).2 = true ∧
    (loadSceneFromJson initState ⟨some ⟨none, none, none, none, none, none⟩, [], []⟩).1.entities = [] ∧
    fileChangeHandler initState .malformed = initState :=
  c1_amended initState ⟨some ⟨none, none, none, none, none, none⟩, [], []⟩
    ⟨none, none, none, none, none, none⟩ rfl (Or.inl rfl)

/-- C1 counterexample: importing a parseable document whose camera block is
empty into a registry holding one sphere surfaces the error, yet afterwards
the registry is empty — not "exactly as it was before the import began". -/
theorem c1_counterexample :
    (loadSceneFromJson (applyOps [Op.addSphere] initState)
        ⟨some ⟨none, none, none, none, none, none⟩, [], []⟩).2 = true ∧
    (loadSceneFromJson (applyOps [Op.addSphere] initState)
        ⟨some ⟨none, none, none, none, none, none⟩, [], []⟩).1.entities = [] ∧
    (applyOps [Op.addSphere] initState).entities ≠ [] := by
  refine ⟨?_, ?_, ?_⟩
  · simp [loadSceneFromJson, loadCameraState]
  · simp [loadSceneFromJson, loadCameraState, clearEntities_entities]
  · simp [applyOps, applyOp, createSphereEntity, selectEntity_entities, generateId, initState]

/-! ### C8 — non-finite numeric field commits -/

/-- C8: the claim is right and the code is wrong.  `createNumberField` rejects
only `NaN` (`!Number.isNaN(parsed)`), so a committed string parsing to
`Infinity` (e.g. `"1e999"`) is applied — `Math.max(0.1, Infinity)` stores an
infinite radius — while the camera-form path (`parseNumber`) correctly falls
back to the prior value on any non-finite parse. -/
theorem c8_code_bug :
    numberFieldCommit .posInf = some .posInf ∧
    radiusAfterCommit 1 .posInf = .posInf ∧
    numberFieldCommit .nan = none ∧
    jsParseNumber .posInf 60 = 60 := by decide

/-! ### C9 — clamping floor on radius and extents -/

/-- C9: committing any value below 0.1 in the Radius field of a sphere stores
exactly 0.1, doing it twice stores 0.1 both times, and the same floor governs
each cube extent axis. -/
theorem c9 (v : ℚ) (hv : v < 1/10) (e f : Entity) (hs : isSphereB e = true)
    (hcu : isCubeB f = true) (ax : Axis) :
    dataRadius (applyRadiusEdit v e) = some (1/10) ∧
    dataRadius (applyRadiusEdit v (applyRadiusEdit v e)) = some (1/10) ∧
    dataExtent (applyExtentEdit ax v f) ax = some (1/10) ∧
    dataExtent (applyExtentEdit ax v (applyExtentEdit ax v f)) ax = some (1/10) := by
  have hmax : max (1/10 : ℚ) v = 1/10 := max_eq_left hv.le
  obtain ⟨ide, meshe, datae⟩ := e
  obtain ⟨idf, meshf, dataf⟩ := f
  cases datae <;> simp [isSphereB] at hs
  cases dataf <;> simp [isCubeB] at hcu
  cases ax <;>
    simp [applyRadiusEdit, applyExtentEdit, dataRadius, dataExtent, V3.axGet, hmax] <;>
    linarith

/-- Witness for `c9` at `v = -5` on concrete sphere and cube entities. -/
theorem c9_witness :
    dataRadius (applyRadiusEdit (-5)
      ⟨⟨"sphere", 2⟩, ⟨⟨0, 1, 0⟩, ⟨1, 1, 1⟩, ⟨1, 1, 1⟩, 1, 1, 1⟩,
        .sphere ⟨0, 1, 0⟩ 1 ⟨1, 1, 1⟩⟩) = some (1/10) ∧
    dataRadius (applyRadiusEdit (-5) (applyRadiusEdit (-5)
      ⟨⟨"sphere", 2⟩, ⟨⟨0, 1, 0⟩, ⟨1, 1, 1⟩, ⟨1, 1, 1⟩, 1, 1, 1⟩,
        .sphere ⟨0, 1, 0⟩ 1 ⟨1, 1, 1⟩⟩)) = some (1/10) ∧
    dataExtent (applyExtentEdit .x (-5)
      ⟨⟨"cube", 3⟩, ⟨⟨0, 3/4, 0⟩, ⟨1, 1, 1⟩, ⟨1, 1, 1⟩, 3/2, 3/2, 3/2⟩,
        .cube ⟨0, 3/4, 0⟩ ⟨3/2, 3/2, 3/2⟩ ⟨1, 1, 1⟩⟩) .x = some (1/10) ∧
    dataExtent (applyExtentEdit .x (-5) (applyExtentEdit .x (-5)
      ⟨⟨"cube", 3⟩, ⟨⟨0, 3/4, 0⟩, ⟨1, 1, 1⟩, ⟨1, 1, 1⟩, 3/2, 3/2, 3/2⟩,
        .cube ⟨0, 3/4, 0⟩ ⟨3/2, 3/2, 3/2⟩ ⟨1, 1, 1⟩⟩)) .x = some (1/10) := by
  exact c9 (-5) (by norm_num) _ _ (by decide) (by decide) .x

/-! ### C2 — dual-representation consistency -/

theorem updateSelected_all {P : Entity → Prop} (s : EditorState) (f : Entity → Entity)
    (hf : ∀ e ∈ s.entities, P e → P (f e))
    (h : ∀ e ∈ s.entities, P e) :
    ∀ e ∈ (updateSelected s f).entities, P e := by
  intro e he
  cases hs : s.selected with
  | none => simp only [updateSelected, hs] at he; exact h e he
  | some i =>
      simp only [updateSelected, hs, List.mem_map] at he
      obtain ⟨a, ha, rfl⟩ := he
      by_cases hid : a.id = i
      · simpa [hid] using hf a ha (h a ha)
      · simpa [hid] using h a ha

theorem sync_syncPos (e : Entity) (p : V3) (h : entitySyncB e = true) :
    entitySyncB (syncPositionFromMesh { e with mesh := { e.mesh with position := p } }) = true := by
  obtain ⟨id, mesh, data⟩ := e
  cases data with
  | sphere center radius color =>
      simp only [entitySyncB, syncPositionFromMesh, closeColorB, Bool.and_eq_true,
        decide_eq_true_eq, and_assoc] at h ⊢
      exact ⟨trivial, h.2.1, h.2.2.1, h.2.2.2.1, h.2.2.2.2.1, h.2.2.2.2.2⟩
  | cube center size color =>
      simp only [entitySyncB, syncPositionFromMesh, closeColorB, Bool.and_eq_true,
        decide_eq_true_eq, and_assoc] at h ⊢
      exact ⟨trivial, h.2.1, h.2.2.1, h.2.2.2.1, h.2.2.2.2.1, h.2.2.2.2.2.1,
        h.2.2.2.2.2.2.1, h.2.2.2.2.2.2.2⟩
  | light pos intensity dir =>
      simp only [entitySyncB, syncPositionFromMesh, Bool.and_eq_true,
        decide_eq_true_eq] at h ⊢
      exact ⟨trivial, h.2⟩

theorem sync_radius (v : ℚ) (e : Entity) (h : entitySyncB e = true) :
    entitySyncB (applyRadiusEdit v e) = true := by
  obtain ⟨id, mesh, data⟩ := e
  cases data with
  | sphere center radius color =>
      simp only [entitySyncB, applyRadiusEdit, closeColorB, Bool.and_eq_true,
        decide_eq_true_eq, and_assoc] at h ⊢
      obtain ⟨hc, hg, hr, hy, hz, hcol⟩ := h
      subst hc
      refine ⟨rfl, hg, ?_, trivial, trivial, hcol⟩
      rw [hg, div_one, one_mul]
  | cube center size color => exact h
  | light pos intensity dir => exact h

theorem sync_extent (ax : Axis) (v : ℚ) (e : Entity) (h : entitySyncB e = true) :
    entitySyncB (applyExtentEdit ax v e) = true := by
  obtain ⟨id, mesh, data⟩ := e
  cases data with
  | sphere center radius color => exact h
  | cube center size color =>
      cases ax with
      | x =>
          simp only [entitySyncB, applyExtentEdit, closeColorB, Bool.and_eq_true,
            decide_eq_true_eq, and_assoc] at h ⊢
          obtain ⟨hc, hw, hh, hd, hx, hy, hz, hcol⟩ := h
          refine ⟨hc, hw, hh, hd, ?_, hy, hz, hcol⟩
          rw [mul_comm, div_mul_cancel₀ _ (ne_of_gt hw)]
      | y =>
          simp only [entitySyncB, applyExtentEdit, closeColorB, Bool.and_eq_true,
            decide_eq_true_eq, and_assoc] at h ⊢
          obtain ⟨hc, hw, hh, hd, hx, hy, hz, hcol⟩ := h
          refine ⟨hc, hw, hh, hd, hx, ?_, hz, hcol⟩
          rw [mul_comm, div_mul_cancel₀ _ (ne_of_gt hh)]
      | z =>
          simp only [entitySyncB, applyExtentEdit, closeColorB, Bool.and_eq_true,
            decide_eq_true_eq, and_assoc] at h ⊢
          obtain ⟨hc, hw, hh, hd, hx, hy, hz, hcol⟩ := h
          refine ⟨hc, hw, hh, hd, hx, hy, ?_, hcol⟩
          rw [mul_comm, div_mul_cancel₀ _ (ne_of_gt hd)]
  | light pos intensity dir => exact h

theorem sync_color (hex : ℕ) (e : Entity) (h : entitySyncB e = true) :
    entitySyncB (applyColorEdit hex e) = true := by
  obtain ⟨id, mesh, data⟩ := e
  cases data with
  | sphere center radius color =>
      simp only [entitySyncB, applyColorEdit, closeColorB, Bool.and_eq_true,
        decide_eq_true_eq, and_assoc] at h ⊢
      obtain ⟨hc, hg, hr, hy, hz, _⟩ := h
      refine ⟨hc, hg, hr, hy, hz, ?_, ?_, ?_⟩ <;> rw [sub_self, abs_zero] <;> norm_num
  | cube center size color =>
      simp only [entitySyncB, applyColorEdit, closeColorB, Bool.and_eq_true,
        decide_eq_true_eq, and_assoc] at h ⊢
      obtain ⟨hc, hw, hh, hd, hx, hy, hz, _⟩ := h
      refine ⟨hc, hw, hh, hd, hx, hy, hz, ?_, ?_, ?_⟩ <;> rw [sub_self, abs_zero] <;> norm_num
  | light pos intensity dir => exact h

theorem sync_intensity (ch : Channel) (v : ℚ) (e : Entity) (h : entitySyncB e = true) :
    entitySyncB (applyIntensityEdit ch v e) = true := by
  obtain ⟨id, mesh, data⟩ := e
  cases data with
  | sphere center radius color => exact h
  | cube center size color => exact h
  | light pos intensity dir =>
      simp only [entitySyncB, applyIntensityEdit, Bool.and_eq_true,
        decide_eq_true_eq] at h ⊢
      exact ⟨h.1, by trivial⟩

theorem sync_direction (ax : Axis) (v : ℚ) (e : Entity) (h : entitySyncB e = true) :
    entitySyncB (applyDirectionEdit ax v e) = true := by
  obtain ⟨id, mesh, data⟩ := e
  cases data with
  | sphere center radius color => exact h
  | cube center size color => exact h
  | light pos intensity dir =>
      simp only [entitySyncB, applyDirectionEdit, Bool.and_eq_true,
        decide_eq_true_eq] at h ⊢
      exact h

theorem sync_new_sphere (i : EntityId) :
    entitySyncB
      ⟨i, ⟨⟨0, 1, 0⟩, ⟨1, 1, 1⟩, hexToColor 0x88ccff, 1, 1, 1⟩,
        .sphere ⟨0, 1, 0⟩ 1 ⟨533/1000, 8/10, 1⟩⟩ = true := by
  simp only [entitySyncB, closeColorB, hexToColor, Bool.and_eq_true, decide_eq_true_eq]
  norm_num [abs_le]

theorem sync_new_cube (i : EntityId) :
    entitySyncB
      ⟨i, ⟨⟨0, 3/4, 0⟩, ⟨1, 1, 1⟩, hexToColor 0xffc164, 3/2, 3/2, 3/2⟩,
        .cube ⟨0, 3/4, 0⟩ ⟨3/2, 3/2, 3/2⟩ ⟨1, 761/1000, 392/1000⟩⟩ = true := by
  simp only [entitySyncB, closeColorB, hexToColor, Bool.and_eq_true, decide_eq_true_eq]
  norm_num [abs_le]

theorem sync_new_light (i : EntityId) :
    entitySyncB
      ⟨i, ⟨⟨3, 5, 3⟩, ⟨1, 1, 1⟩, hexToColor 0xffffff, 1, 1, 1⟩,
        .light ⟨3, 5, 3⟩ ⟨1, 1, 1⟩ ⟨0, -1, 0⟩⟩ = true := by
  simp only [entitySyncB, hexToColor, Bool.and_eq_true, decide_eq_true_eq]
  norm_num

theorem sync_applyOp (s : EditorState) (o : Op) (ho : o.isEdit = true)
    (h : ∀ e ∈ s.entities, entitySyncB e = true) :
    ∀ e ∈ (applyOp s o).entities, entitySyncB e = true := by
  cases o with
  | addSphere =>
      intro e he
      simp only [applyOp, createSphereEntity, generateId, selectEntity_entities,
        List.mem_append, List.mem_singleton] at he
      rcases he with he | rfl
      · exact h e he
      · exact sync_new_sphere _
  | addCube =>
      intro e he
      simp only [applyOp, createCubeEntity, generateId, selectEntity_entities,
        List.mem_append, List.mem_singleton] at he
      rcases he with he | rfl
      · exact h e he
      · exact sync_new_cube _
  | addLight =>
      intro e he
      simp only [applyOp, createLightEntity, generateId, selectEntity_entities,
        List.mem_append, List.mem_singleton] at he
      rcases he with he | rfl
      · exact h e he
      · exact sync_new_light _
  | setPos ax v =>
      simp only [applyOp, setEntityPosition]
      exact updateSelected_all s _ (fun e _ hp => sync_syncPos e _ hp) h
  | setRad v =>
      simp only [applyOp]
      exact updateSelected_all s _ (fun e _ hp => sync_radius v e hp) h
  | setExt ax v =>
      simp only [applyOp]
      exact updateSelected_all s _ (fun e _ hp => sync_extent ax v e hp) h
  | setCol hex =>
      simp only [applyOp]
      exact updateSelected_all s _ (fun e _ hp => sync_color hex e hp) h
  | setInt ch v =>
      simp only [applyOp]
      exact updateSelected_all s _ (fun e _ hp => sync_intensity ch v e hp) h
  | setDir ax v =>
      simp only [applyOp]
      exact updateSelected_all s _ (fun e _ hp => sync_direction ax v e hp) h
  | gizmo p =>
      simp only [applyOp, gizmoDragCommit]
      exact updateSelected_all s _ (fun e _ hp => sync_syncPos e p hp) h
  | select i =>
      intro e he
      simp only [applyOp, selectEntity_entities] at he
      exact h e he
  | deleteSel =>
      intro e he
      simp only [applyOp, deleteSelected] at he
      rcases hs : s.selected with _ | i
      · simp only [hs] at he; exact h e he
      · simp only [hs] at he
        rcases hf : s.entities.find? (fun e' => decide (e'.id = i)) with _ | ent
        · simp only [hf] at he; exact h e he
        · simp only [hf, removeEntity] at he
          have hm : e ∈ (selectEntity s none).entities := List.mem_of_mem_erase he
          rw [selectEntity_entities] at hm
          exact h e hm
  | deleteById i =>
      intro e he
      simp only [applyOp, deleteEntityById] at he
      rcases hf : s.entities.find? (fun e' => decide (e'.id = i)) with _ | ent
      · simp only [hf] at he; exact h e he
      · simp only [hf, removeEntity] at he
        exact h e (List.mem_of_mem_erase he)
  | importDoc d => simp [Op.isEdit] at ho

theorem allSync_applyOps :
    ∀ (ops : List Op) (s : EditorState),
      (∀ o ∈ ops, o.isEdit = true) →
      (∀ e ∈ s.entities, entitySyncB e = true) →
      ∀ e ∈ (applyOps ops s).entities, entitySyncB e = true := by
  intro ops
  induction ops with
  | nil => intro s _ h; simpa [applyOps] using h
  | cons o t ih =>
      intro s hob h
      have h1 := sync_applyOp s o (hob o (by simp)) h
      have ht : ∀ o' ∈ t, o'.isEdit = true := fun o' ho' => hob o' (by simp [ho'])
      simpa [applyOps] using ih (applyOp s o) ht h1

/-- C2 (amended): after any sequence of create / setPosition / setRadius /
setExtents / setColor / setLightIntensity / gizmo-commit / select / delete
operations, every live entity's canonical data and visual handle denote the
same geometry exactly, lights' intensity equals the light colour exactly, and
the canonical colour agrees with the material colour within `1/200` — not
within `1e-6` as claimed, because the default canonical colours of freshly
created entities are three-decimal approximations of the default material hex
(the cube's green channel differs by `211/51000 ≈ 4.1e-3`). -/
theorem c2_amended (ops : List Op) (h : ∀ o ∈ ops, o.isEdit = true) :
    (applyOps ops initState).entities.all entitySyncB = true := by
  rw [List.all_eq_true]
  exact allSync_applyOps ops initState h (by simp [initState])

/-- Witness for `c2_amended` on a concrete operation sequence exercising
every property class. -/
theorem c2_amended_witness :
    (applyOps [Op.addCube, Op.setRad 5, Op.setExt .x (-2), Op.setCol 0x123456,
      Op.gizmo ⟨1, 2, 3⟩, Op.addLight, Op.setInt .r (-3), Op.setPos .x 7,
      Op.deleteSel, Op.addSphere] initState).entities.all entitySyncB = true :=
  c2_amended _ (by decide)

/-- C2 counterexample: immediately after the single operation "create cube",
the exported colour (the canonical literal `0.761`) and the colour derived
from the visual node's material (`193/255`) differ by more than `1e-6`, so
the claim's tolerance does not hold after every operation. -/
theorem c2_counterexample :
    (buildSceneJson (applyOps [Op.addCube] initState)).objects =
      [ObjectRec.cube ⟨-3/4, 0, -3/4⟩ ⟨3/4, 3/2, 3/4⟩ ⟨1, 761/1000, 392/1000⟩] ∧
    (applyOps [Op.addCube] initState).entities.map (fun e => e.mesh.materialColor) =
      [⟨1, 193/255, 100/255⟩] ∧
    ¬(|(761/1000 : ℚ) - 193/255| ≤ 1/1000000) := by
  refine ⟨?_, ?_, ?_⟩
  · norm_num [applyOps, applyOp, createCubeEntity, generateId,
      buildSceneJson, selectEntity_entities, initState, encodeObject, encodeLight,
      colorToArray, hexToColor, List.filterMap_cons, List.filterMap_nil]
  · norm_num [applyOps, applyOp, createCubeEntity, generateId,
      selectEntity_entities, initState, hexToColor]
  · rw [not_le, abs_of_pos (by norm_num)]
    norm_num

/-! ### C4 — colour clamping on encode -/

theorem colorInRangeB_hexToColor (hex : ℕ) : colorInRangeB (hexToColor hex) = true := by
  have hb : ∀ k : ℕ, 0 ≤ ((k % 256 : ℕ) : ℚ) / 255 ∧ ((k % 256 : ℕ) : ℚ) / 255 ≤ 1 := by
    intro k
    constructor
    · positivity
    · rw [div_le_one (by norm_num)]
      have hk : k % 256 ≤ 255 := Nat.le_of_lt_succ (Nat.mod_lt k (by norm_num))
      exact_mod_cast hk
  simp only [colorInRangeB, hexToColor, Bool.and_eq_true, decide_eq_true_eq, and_assoc]
  exact ⟨(hb _).1, (hb _).2, (hb _).1, (hb _).2, (hb _).1, (hb _).2⟩

theorem colorsOK_syncPos (e : Entity) (p : V3) (h : entityColorsOKB e = true) :
    entityColorsOKB (syncPositionFromMesh { e with mesh := { e.mesh with position := p } }) = true := by
  obtain ⟨id, mesh, data⟩ := e
  cases data <;> simp only [entityColorsOKB, syncPositionFromMesh] at h ⊢ <;> exact h

theorem colorsOK_radius (v : ℚ) (e : Entity) (h : entityColorsOKB e = true) :
    entityColorsOKB (applyRadiusEdit v e) = true := by
  obtain ⟨id, mesh, data⟩ := e
  cases data <;> simp only [entityColorsOKB, applyRadiusEdit] at h ⊢ <;> exact h

theorem colorsOK_extent (ax : Axis) (v : ℚ) (e : Entity) (h : entityColorsOKB e = true) :
    entityColorsOKB (applyExtentEdit ax v e) = true := by
  obtain ⟨id, mesh, data⟩ := e
  cases data <;> cases ax <;> simp only [entityColorsOKB, applyExtentEdit] at h ⊢ <;> exact h

theorem colorsOK_color (hex : ℕ) (e : Entity) (h : entityColorsOKB e = true) :
    entityColorsOKB (applyColorEdit hex e) = true := by
  obtain ⟨id, mesh, data⟩ := e
  cases data with
  | sphere center radius color =>
      simp only [entityColorsOKB, applyColorEdit]
      exact colorInRangeB_hexToColor hex
  | cube center size color =>
      simp only [entityColorsOKB, applyColorEdit]
      exact colorInRangeB_hexToColor hex
  | light pos intensity dir => exact h

theorem colorsOK_intensity (ch : Channel) (v : ℚ) (e : Entity) (h : entityColorsOKB e = true) :
    entityColorsOKB (applyIntensityEdit ch v e) = true := by
  obtain ⟨id, mesh, data⟩ := e
  cases data <;> simp only [entityColorsOKB, applyIntensityEdit] at h ⊢ <;> exact h

theorem colorsOK_direction (ax : Axis) (v : ℚ) (e : Entity) (h : entityColorsOKB e = true) :
    entityColorsOKB (applyDirectionEdit ax v e) = true := by
  obtain ⟨id, mesh, data⟩ := e
  cases data <;> simp only [entityColorsOKB, applyDirectionEdit] at h ⊢ <;> exact h

theorem colorsOK_applyOp (s : EditorState) (o : Op) (ho : o.isEdit = true)
    (h : ∀ e ∈ s.entities, entityColorsOKB e = true) :
    ∀ e ∈ (applyOp s o).entities, entityColorsOKB e = true := by
  cases o with
  | addSphere =>
      intro e he
      simp only [applyOp, createSphereEntity, generateId, selectEntity_entities,
        List.mem_append, List.mem_singleton] at he
      rcases he with he | rfl
      · exact h e he
      · simp only [entityColorsOKB, colorInRangeB, Bool.and_eq_true, decide_eq_true_eq,
          and_assoc]
        norm_num
  | addCube =>
      intro e he
      simp only [applyOp, createCubeEntity, generateId, selectEntity_entities,
        List.mem_append, List.mem_singleton] at he
      rcases he with he | rfl
      · exact h e he
      · simp only [entityColorsOKB, colorInRangeB, Bool.and_eq_true, decide_eq_true_eq,
          and_assoc]
        norm_num
  | addLight =>
      intro e he
      simp only [applyOp, createLightEntity, generateId, selectEntity_entities,
        List.mem_append, List.mem_singleton] at he
      rcases he with he | rfl
      · exact h e he
      · rfl
  | setPos ax v =>
      simp only [applyOp, setEntityPosition]
      exact updateSelected_all s _ (fun e _ hp => colorsOK_syncPos e _ hp) h
  | setRad v =>
      simp only [applyOp]
      exact updateSelected_all s _ (fun e _ hp => colorsOK_radius v e hp) h
  | setExt ax v =>
      simp only [applyOp]
      exact updateSelected_all s _ (fun e _ hp => colorsOK_extent ax v e hp) h
  | setCol hex =>
      simp only [applyOp]
      exact updateSelected_all s _ (fun e _ hp => colorsOK_color hex e hp) h
  | setInt ch v =>
      simp only [applyOp]
      exact updateSelected_all s _ (fun e _ hp => colorsOK_intensity ch v e hp) h
  | setDir ax v =>
      simp only [applyOp]
      exact updateSelected_all s _ (fun e _ hp => colorsOK_direction ax v e hp) h
  | gizmo p =>
      simp only [applyOp, gizmoDragCommit]
      exact updateSelected_all s _ (fun e _ hp => colorsOK_syncPos e p hp) h
  | select i =>
      intro e he
      simp only [applyOp, selectEntity_entities] at he
      exact h e he
  | deleteSel =>
      intro e he
      simp only [applyOp, deleteSelected] at he
      rcases hs : s.selected with _ | i
      · simp only [hs] at he; exact h e he
      · simp only [hs] at he
        rcases hf : s.entities.find? (fun e' => decide (e'.id = i)) with _ | ent
        · simp only [hf] at he; exact h e he
        · simp only [hf, removeEntity] at he
          have hm : e ∈ (selectEntity s none).entities := List.mem_of_mem_erase he
          rw [selectEntity_entities] at hm
          exact h e hm
  | deleteById i =>
      intro e he
      simp only [applyOp, deleteEntityById] at he
      rcases hf : s.entities.find? (fun e' => decide (e'.id = i)) with _ | ent
      · simp only [hf] at he; exact h e he
      · simp only [hf, removeEntity] at he
        exact h e (List.mem_of_mem_erase he)
  | importDoc d => simp [Op.isEdit] at ho

theorem allColorsOK_applyOps :
    ∀ (ops : List Op) (s : EditorState),
      (∀ o ∈ ops, o.isEdit = true) →
      (∀ e ∈ s.entities, entityColorsOKB e = true) →
      ∀ e ∈ (applyOps ops s).entities, entityColorsOKB e = true := by
  intro ops
  induction ops with
  | nil => intro s _ h; simpa [applyOps] using h
  | cons o t ih =>
      intro s hob h
      have h1 := colorsOK_applyOp s o (hob o (by simp)) h
      have ht : ∀ o' ∈ t, o'.isEdit = true := fun o' ho' => hob o' (by simp [ho'])
      simpa [applyOps] using ih (applyOp s o) ht h1

theorem objColorsInRangeB_of_entities (s : EditorState)
    (h : ∀ e ∈ s.entities, entityColorsOKB e = true) :
    objColorsInRangeB (buildSceneJson s) = true := by
  rw [objColorsInRangeB, List.all_eq_true]
  intro o ho
  simp only [buildSceneJson, List.mem_filterMap] at ho
  obtain ⟨e, he, henc⟩ := ho
  have hc := h e he
  obtain ⟨id, mesh, data⟩ := e
  cases data with
  | sphere center radius color =>
      simp only [encodeObject, colorToArray, Option.some.injEq] at henc
      subst henc
      simpa [entityColorsOKB] using hc
  | cube center size color =>
      simp only [encodeObject, colorToArray, Option.some.injEq] at henc
      subst henc
      simpa [entityColorsOKB] using hc
  | light pos intensity dir => simp [encodeObject] at henc

/-- C4 (amended): the encoder itself performs no clamping — `colorToArray`
emits the canonical channels verbatim, and the `clamp01` clamping exists only
on the UI display path (`colorToHex`).  Nevertheless, every state reachable
by the editor's own operations (create, edits, delete — everything except
importing a document with out-of-range colours) encodes only object colour
channels inside `[0, 1]`, because creation defaults and the colour picker
produce in-range channels. -/
theorem c4_amended (ops : List Op) (h : ∀ o ∈ ops, o.isEdit = true) :
    objColorsInRangeB (buildSceneJson (applyOps ops initState)) = true :=
  objColorsInRangeB_of_entities _
    (allColorsOK_applyOps ops initState h (by simp [initState]))

/-- Witness for `c4_amended` on a concrete operation sequence. -/
theorem c4_amended_witness :
    objColorsInRangeB (buildSceneJson (applyOps
      [Op.addSphere, Op.addCube, Op.setCol 0xff00ff, Op.addLight,
        Op.setInt .g 7] initState)) = true :=
  c4_amended _ (by decide)

/-- C4 counterexample: importing a sphere whose colour channel is 2 and
re-encoding emits the channel 2 unclamped (`colorToArray` is the identity),
so the emitted document violates `0 ≤ c ≤ 1` in a reachable state. -/
theorem c4_counterexample :
    (buildSceneJson (loadSceneFromJson initState
      ⟨some ⟨some ⟨0, 0, -5⟩, some ⟨0, 0, 0⟩, some ⟨0, 1, 0⟩, some 60, some 400, some 300⟩,
        [.sphere ⟨0, 0, 0⟩ 1 ⟨2, 1/2, 1/2⟩], []⟩).1).objects =
      [ObjectRec.sphere ⟨0, 0, 0⟩ 1 ⟨2, 1/2, 1/2⟩] ∧
    colorToArray ⟨2, 1/2, 1/2⟩ = ⟨2, 1/2, 1/2⟩ ∧
    ¬((2 : ℚ) ≤ 1) := by
  refine ⟨?_, rfl, by norm_num⟩
  norm_num [loadSceneFromJson, clearEntities, initState, loadCameraState, finishLoad,
    loadObject, generateId, buildSceneJson, selectEntity_entities, encodeObject,
    encodeLight, colorToArray, List.filterMap_cons, List.filterMap_nil]

/-! ### Registry invariant machinery (C5, C6, C7) -/

theorem inv_cameraSet (s : EditorState) (c : CameraState) (h : Inv s) :
    Inv { s with cameraState := c } :=
  ⟨h.sel, h.idsNodup, h.idsBound, h.allocChain, h.allocBound, h.liveAlloc,
    h.dispBound, h.liveNotDisp⟩

theorem inv_selectEntity (s : EditorState) (i : Option EntityId) (h : Inv s) :
    Inv (selectEntity s i) := by
  rcases hfind : i.bind (fun j => s.entities.find? (fun e => decide (e.id = j))) with _ | e <;>
    simp only [selectEntity, hfind]
  · exact ⟨Or.inl rfl, h.idsNodup, h.idsBound, h.allocChain, h.allocBound, h.liveAlloc,
      h.dispBound, h.liveNotDisp⟩
  · refine ⟨Or.inr ⟨e, ?_, rfl⟩, h.idsNodup, h.idsBound, h.allocChain, h.allocBound,
      h.liveAlloc, h.dispBound, h.liveNotDisp⟩
    rcases i with _ | j
    · simp at hfind
    · exact List.mem_of_find?_eq_some hfind

theorem inv_removeEntity (s : EditorState) (ent : Entity) (hm : ent ∈ s.entities)
    (h : Inv s) : Inv (removeEntity s ent) := by
  have hnodupE : s.entities.Nodup := List.Nodup.of_map _ h.idsNodup
  refine ⟨?_, ?_, ?_, h.allocChain, h.allocBound, ?_, ?_, ?_⟩
  · simp only [selLive, removeEntity]
    by_cases hsel : s.selected = some ent.id
    · rw [if_pos hsel]; exact Or.inl rfl
    · rw [if_neg hsel]
      rcases h.sel with hn | ⟨e, he, hse⟩
      · exact Or.inl hn
      · have hne : e ≠ ent := fun hEq => hsel (hEq ▸ hse)
        exact Or.inr ⟨e, (List.mem_erase_of_ne hne).mpr he, hse⟩
  · exact List.Nodup.sublist ((List.erase_sublist ent s.entities).map _) h.idsNodup
  · intro e he
    exact h.idsBound e (List.mem_of_mem_erase he)
  · intro e he
    exact h.liveAlloc e (List.mem_of_mem_erase he)
  · intro j hj
    simp only [removeEntity] at hj
    rcases List.mem_append.mp hj with hj | hj
    · exact h.dispBound j hj
    · rw [List.mem_singleton.mp hj]; exact h.idsBound ent hm
  · intro e he hd
    simp only [removeEntity] at he hd
    have heL : e ∈ s.entities := List.mem_of_mem_erase he
    have hneq : e ≠ ent := (hnodupE.mem_erase_iff.mp he).1
    have hid : e.id ≠ ent.id := by
      intro hEq
      exact hneq (List.inj_on_of_nodup_map h.idsNodup heL hm (by rw [hEq]))
    rcases List.mem_append.mp hd with hd | hd
    · exact h.liveNotDisp e heL hd
    · exact hid (List.mem_singleton.mp hd)

theorem inv_appendFresh (s : EditorState) (tag : String) (mesh : Visual)
    (data : EntityData) (h : Inv s) :
    Inv { s with
      idCounter := s.idCounter + 1
      allocatedIds := s.allocatedIds ++ [⟨tag, s.idCounter + 1⟩]
      entities := s.entities ++ [⟨⟨tag, s.idCounter + 1⟩, mesh, data⟩]
      options := s.options ++ [⟨tag, s.idCounter + 1⟩] } := by
  refine ⟨?_, ?_, ?_, ?_, ?_, ?_, ?_, ?_⟩
  · rcases h.sel with hn | ⟨e, he, hse⟩
    · exact Or.inl hn
    · exact Or.inr ⟨e, List.mem_append_left _ he, hse⟩
  · rw [List.map_append]
    refine List.Nodup.append h.idsNodup (by simp) ?_
    intro a ha hb
    simp only [List.map_cons, List.map_nil, List.mem_singleton] at hb
    subst hb
    obtain ⟨e, he, hnum⟩ := List.mem_map.mp ha
    have h1 := h.idsBound e he
    rw [hnum] at h1
    exact Nat.not_succ_le_self _ h1
  · intro e he
    rcases List.mem_append.mp he with he | he
    · exact (h.idsBound e he).trans (Nat.le_succ _)
    · rw [List.mem_singleton.mp he]
  · rw [List.chain'_append]
    refine ⟨h.allocChain, List.chain'_singleton _, ?_⟩
    intro x hx y hy
    simp only [List.head?_cons, Option.mem_def, Option.some.injEq] at hy
    subst hy
    have h1 := h.allocBound x (List.mem_of_mem_getLast? hx)
    show x.num < s.idCounter + 1
    omega
  · intro a ha
    rcases List.mem_append.mp ha with ha | ha
    · exact (h.allocBound a ha).trans (Nat.le_succ _)
    · rw [List.mem_singleton.mp ha]
  · intro e he
    rcases List.mem_append.mp he with he | he
    · exact List.mem_append_left _ (h.liveAlloc e he)
    · rw [List.mem_singleton.mp he]
      exact List.mem_append_right _ (by simp)
  · intro j hj
    exact (h.dispBound j hj).trans (Nat.le_succ _)
  · intro e he hd
    rcases List.mem_append.mp he with he | he
    · exact h.liveNotDisp e he hd
    · have h1 := h.dispBound _ hd
      rw [List.mem_singleton.mp he] at h1
      exact Nat.not_succ_le_self _ h1

theorem inv_foldl_removeEntity :
    ∀ (l : List Entity) (s : EditorState), Inv s → s.entities = l →
      Inv (l.foldl removeEntity s) := by
  intro l
  induction l with
  | nil => intro s h _; exact h
  | cons a t ih =>
      intro s h hl
      have hm : a ∈ s.entities := by rw [hl]; exact List.mem_cons_self a t
      have h2 : (removeEntity s a).entities = t := by
        simp only [removeEntity, hl]
        exact List.erase_cons_head a t
      exact ih (removeEntity s a) (inv_removeEntity s a hm h) h2

theorem inv_clearEntities (s : EditorState) (h : Inv s) : Inv (clearEntities s) :=
  inv_foldl_removeEntity s.entities s h rfl

theorem inv_loadObject (s : EditorState) (o : ObjectRec) (h : Inv s) :
    Inv (loadObject s o) := by
  cases o with
  | sphere center radius color => exact inv_appendFresh s "sphere" _ _ h
  | cube mn mx color => exact inv_appendFresh s "cube" _ _ h
  | unknownType => exact h

theorem inv_loadLight (s : EditorState) (l : LightRec) (h : Inv s) :
    Inv (loadLight s l) := by
  cases l with
  | point posq intq dirq => exact inv_appendFresh s "light" _ _ h
  | unknownKind => exact h

theorem inv_foldl_loadObject :
    ∀ (l : List ObjectRec) (s : EditorState), Inv s → Inv (l.foldl loadObject s) := by
  intro l
  induction l with
  | nil => intro s h; exact h
  | cons o t ih => intro s h; exact ih _ (inv_loadObject s o h)

theorem inv_foldl_loadLight :
    ∀ (l : List LightRec) (s : EditorState), Inv s → Inv (l.foldl loadLight s) := by
  intro l
  induction l with
  | nil => intro s h; exact h
  | cons o t ih => intro s h; exact ih _ (inv_loadLight s o h)

theorem inv_finishLoad (s : EditorState) (d : SceneDoc) (h : Inv s) :
    Inv (finishLoad s d) := by
  simp only [finishLoad]
  have h2 := inv_foldl_loadLight d.lights _ (inv_foldl_loadObject d.objects s h)
  rcases hq : (d.lights.foldl loadLight (d.objects.foldl loadObject s)).entities.getLast?
      with _ | e <;>
    simp only [hq] <;> exact inv_selectEntity _ _ h2

theorem inv_loadScene (s : EditorState) (d : SceneDoc) (h : Inv s) :
    Inv (loadSceneFromJson s d).1 := by
  simp only [loadSceneFromJson]
  have h1 := inv_clearEntities s h
  rcases hc : d.camera with _ | cam
  · simp only [hc]
    exact inv_finishLoad _ _ h1
  · simp only [hc]
    rcases hpr : loadCameraState (clearEntities s).cameraState cam with ⟨cs, err⟩
    cases err
    · simp only [Bool.false_eq_true, if_false]
      exact inv_finishLoad _ _ (inv_cameraSet _ _ h1)
    · simp only [if_true]
      exact inv_cameraSet _ _ h1

theorem inv_updateSelected (s : EditorState) (f : Entity → Entity)
    (hid : ∀ e, (f e).id = e.id) (h : Inv s) : Inv (updateSelected s f) := by
  rcases hs : s.selected with _ | i
  · simp only [updateSelected, hs]; exact h
  · simp only [updateSelected, hs]
    have hgid : ∀ e, ((fun e => if e.id = i then f e else e) e).id = e.id := by
      intro e; by_cases hh : e.id = i <;> simp [hh, hid]
    refine ⟨?_, ?_, ?_, h.allocChain, h.allocBound, ?_, h.dispBound, ?_⟩
    · rcases h.sel with hn | ⟨e, he, hse⟩
      · rw [hs] at hn; exact absurd hn (by simp)
      · right
        refine ⟨_, List.mem_map_of_mem _ he, ?_⟩
        rw [hgid]
        rw [hs] at hse
        exact hse
    · rw [List.map_map]
      have : ((fun e : Entity => e.id.num) ∘ fun e => if e.id = i then f e else e) =
          fun e : Entity => ((fun e' : Entity => if e'.id = i then f e' else e') e).id.num := rfl
      rw [show (List.map ((fun e : Entity => e.id.num) ∘ fun e => if e.id = i then f e else e)
          s.entities) = s.entities.map (fun e => e.id.num) from
        List.map_congr_left (fun e _ => by simp [Function.comp, hgid e])]
      exact h.idsNodup
    · intro e he
      obtain ⟨a, ha, rfl⟩ := List.mem_map.mp he
      rw [hgid]
      exact h.idsBound a ha
    · intro e he
      obtain ⟨a, ha, rfl⟩ := List.mem_map.mp he
      rw [hgid]
      exact h.liveAlloc a ha
    · intro e he
      obtain ⟨a, ha, rfl⟩ := List.mem_map.mp he
      rw [hgid]
      exact h.liveNotDisp a ha

theorem updateSelected_map_id (s : EditorState) (f : Entity → Entity)
    (hid : ∀ e, (f e).id = e.id) :
    ((updateSelected s f).entities.map fun e => e.id) = s.entities.map fun e => e.id := by
  rcases hs : s.selected with _ | i
  · simp only [updateSelected, hs]
  · simp only [updateSelected, hs]
    rw [List.map_map]
    refine List.map_congr_left (fun e _ => ?_)
    by_cases hh : e.id = i <;> simp [Function.comp, hh, hid]

theorem applyRadiusEdit_id (v : ℚ) (e : Entity) : (applyRadiusEdit v e).id = e.id := by
  obtain ⟨id, mesh, data⟩ := e; cases data <;> rfl

theorem applyExtentEdit_id (ax : Axis) (v : ℚ) (e : Entity) :
    (applyExtentEdit ax v e).id = e.id := by
  obtain ⟨id, mesh, data⟩ := e; cases data <;> cases ax <;> rfl

theorem applyColorEdit_id (hex : ℕ) (e : Entity) : (applyColorEdit hex e).id = e.id := by
  obtain ⟨id, mesh, data⟩ := e; cases data <;> rfl

theorem applyIntensityEdit_id (ch : Channel) (v : ℚ) (e : Entity) :
    (applyIntensityEdit ch v e).id = e.id := by
  obtain ⟨id, mesh, data⟩ := e; cases data <;> rfl

theorem applyDirectionEdit_id (ax : Axis) (v : ℚ) (e : Entity) :
    (applyDirectionEdit ax v e).id = e.id := by
  obtain ⟨id, mesh, data⟩ := e; cases data <;> rfl

theorem syncPosMesh_id (e : Entity) (p : V3) :
    (syncPositionFromMesh { e with mesh := { e.mesh with position := p } }).id = e.id := by
  obtain ⟨id, mesh, data⟩ := e; cases data <;> rfl

theorem inv_applyOp (s : EditorState) (o : Op) (h : Inv s) : Inv (applyOp s o) := by
  cases o with
  | addSphere => exact inv_selectEntity _ _ (inv_appendFresh s "sphere" _ _ h)
  | addCube => exact inv_selectEntity _ _ (inv_appendFresh s "cube" _ _ h)
  | addLight => exact inv_selectEntity _ _ (inv_appendFresh s "light" _ _ h)
  | setPos ax v => exact inv_updateSelected s _ (fun e => syncPosMesh_id e _) h
  | setRad v => exact inv_updateSelected s _ (applyRadiusEdit_id v) h
  | setExt ax v => exact inv_updateSelected s _ (applyExtentEdit_id ax v) h
  | setCol hex => exact inv_updateSelected s _ (applyColorEdit_id hex) h
  | setInt ch v => exact inv_updateSelected s _ (applyIntensityEdit_id ch v) h
  | setDir ax v => exact inv_updateSelected s _ (applyDirectionEdit_id ax v) h
  | gizmo p => exact inv_updateSelected s _ (fun e => syncPosMesh_id e p) h
  | select i => exact inv_selectEntity _ _ h
  | deleteSel =>
      simp only [applyOp, deleteSelected]
      rcases hs : s.selected with _ | i
      · exact h
      · rcases hf : s.entities.find? (fun e => decide (e.id = i)) with _ | ent
        · simp only [hf]; exact h
        · simp only [hf]
          have hm : ent ∈ (selectEntity s none).entities := by
            rw [selectEntity_entities]; exact List.mem_of_find?_eq_some hf
          exact inv_removeEntity _ _ hm (inv_selectEntity _ _ h)
  | deleteById i =>
      simp only [applyOp, deleteEntityById]
      rcases hf : s.entities.find? (fun e => decide (e.id = i)) with _ | ent
      · simp only [hf]; exact h
      · simp only [hf]
        exact inv_removeEntity _ _ (List.mem_of_find?_eq_some hf) h
  | importDoc d => exact inv_loadScene s d h

theorem inv_initState : Inv initState := by
  refine ⟨Or.inl rfl, ?_, ?_, ?_, ?_, ?_, ?_, ?_⟩ <;> simp [initState]

theorem inv_applyOps_of :
    ∀ (ops : List Op) (s : EditorState), Inv s → Inv (applyOps ops s) := by
  intro ops
  induction ops with
  | nil => intro s h; exact h
  | cons o t ih =>
      intro s h
      exact ih _ (inv_applyOp s o h)

theorem inv_applyOps (ops : List Op) : Inv (applyOps ops initState) :=
  inv_applyOps_of ops initState inv_initState

/-! ### C5 — id uniqueness, monotonicity, no reuse -/

/-- C5: after any operation sequence, the live entities' id counters are
pairwise distinct (no two simultaneously-live entities share an id), the ghost
log of every id ever returned by `generateId` is strictly increasing in
allocation order (ids are monotone and an allocated id can never be produced
again, even after its entity is deleted), every live id is an allocated id,
and no mutating edit changes any entity's id. -/
theorem c5 (ops : List Op) :
    (((applyOps ops initState).entities.map fun e => e.id.num).Nodup) ∧
    List.Chain' (fun a b : EntityId => a.num < b.num) (applyOps ops initState).allocatedIds ∧
    (∀ e ∈ (applyOps ops initState).entities, e.id ∈ (applyOps ops initState).allocatedIds) ∧
    (∀ ax v, ((setEntityPosition (applyOps ops initState) ax v).entities.map fun e => e.id) =
      ((applyOps ops initState).entities.map fun e => e.id)) ∧
    (∀ v, ((updateSelected (applyOps ops initState) (applyRadiusEdit v)).entities.map
      fun e => e.id) = ((applyOps ops initState).entities.map fun e => e.id)) ∧
    (∀ ax v, ((updateSelected (applyOps ops initState) (applyExtentEdit ax v)).entities.map
      fun e => e.id) = ((applyOps ops initState).entities.map fun e => e.id)) ∧
    (∀ hex, ((updateSelected (applyOps ops initState) (applyColorEdit hex)).entities.map
      fun e => e.id) = ((applyOps ops initState).entities.map fun e => e.id)) ∧
    (∀ ch v, ((updateSelected (applyOps ops initState) (applyIntensityEdit ch v)).entities.map
      fun e => e.id) = ((applyOps ops initState).entities.map fun e => e.id)) ∧
    (∀ ax v, ((updateSelected (applyOps ops initState) (applyDirectionEdit ax v)).entities.map
      fun e => e.id) = ((applyOps ops initState).entities.map fun e => e.id)) ∧
    (∀ p, ((gizmoDragCommit (applyOps ops initState) p).entities.map fun e => e.id) =
      ((applyOps ops initState).entities.map fun e => e.id)) := by
  have h := inv_applyOps ops
  refine ⟨h.idsNodup, h.allocChain, h.liveAlloc, ?_, ?_, ?_, ?_, ?_, ?_, ?_⟩
  · intro ax v
    exact updateSelected_map_id _ _ (fun e => syncPosMesh_id e _)
  · intro v
    exact updateSelected_map_id _ _ (applyRadiusEdit_id v)
  · intro ax v
    exact updateSelected_map_id _ _ (applyExtentEdit_id ax v)
  · intro hex
    exact updateSelected_map_id _ _ (applyColorEdit_id hex)
  · intro ch v
    exact updateSelected_map_id _ _ (applyIntensityEdit_id ch v)
  · intro ax v
    exact updateSelected_map_id _ _ (applyDirectionEdit_id ax v)
  · intro p
    exact updateSelected_map_id _ _ (fun e => syncPosMesh_id e p)

/-! ### C6 — delete semantics -/

/-- C6: in any reachable state, deleting an id that names no live entity is a
no-op that changes nothing; deleting a live id removes the entity from the
registry, disposes its mesh exactly once over the whole history (the ghost
disposal log counts it exactly once), removes its entries from the object
list, leaves the selection off the deleted id, and an immediately repeated
delete of the same id is a no-op. -/
theorem c6 (ops : List Op) (i : EntityId) :
    ((applyOps ops initState).entities.find? (fun e => decide (e.id = i)) = none →
      deleteEntityById (applyOps ops initState) i = applyOps ops initState) ∧
    (((applyOps ops initState).entities.find? (fun e => decide (e.id = i))).isSome = true →
      (∀ e' ∈ (deleteEntityById (applyOps ops initState) i).entities, e'.id ≠ i) ∧
      (deleteEntityById (applyOps ops initState) i).disposed.count i = 1 ∧
      i ∉ (deleteEntityById (applyOps ops initState) i).options ∧
      ¬(deleteEntityById (applyOps ops initState) i).selected = some i ∧
      deleteEntityById (deleteEntityById (applyOps ops initState) i) i =
        deleteEntityById (applyOps ops initState) i) := by
  have hI := inv_applyOps ops
  set S := applyOps ops initState with hS
  constructor
  · intro hf
    simp only [deleteEntityById, hf]
  · intro hsome
    obtain ⟨ent, hf⟩ := Option.isSome_iff_exists.mp hsome
    have hid : ent.id = i := by
      have hp := List.find?_some hf
      simpa using hp
    have hm : ent ∈ S.entities := List.mem_of_find?_eq_some hf
    have hdel : deleteEntityById S i = removeEntity S ent := by
      simp only [deleteEntityById, hf]
    have hnodupE : S.entities.Nodup := List.Nodup.of_map _ hI.idsNodup
    have hnotin : ∀ e' ∈ (removeEntity S ent).entities, e'.id ≠ i := by
      intro e' he' hEq
      simp only [removeEntity] at he'
      have hne : e' ≠ ent := (hnodupE.mem_erase_iff.mp he').1
      have heL : e' ∈ S.entities := List.mem_of_mem_erase he'
      exact hne (List.inj_on_of_nodup_map hI.idsNodup heL hm (by rw [hEq, hid]))
    refine ⟨?_, ?_, ?_, ?_, ?_⟩
    · rw [hdel]; exact hnotin
    · rw [hdel]
      simp only [removeEntity]
      rw [List.count_append]
      have hz : S.disposed.count i = 0 := by
        rw [List.count_eq_zero]
        intro hmem
        exact hI.liveNotDisp ent hm (hid ▸ hmem)
      rw [hz, hid, List.count_singleton]
      simp
    · rw [hdel]
      simp only [removeEntity]
      intro hmem
      rcases List.mem_filter.mp hmem with ⟨_, hp⟩
      exact (of_decide_eq_true hp) hid.symm
    · rw [hdel]
      simp only [removeEntity]
      by_cases hsel : S.selected = some ent.id
      · rw [if_pos hsel]; simp
      · rw [if_neg hsel, ← hid]
        exact hsel
    · rw [hdel]
      have hnone : (removeEntity S ent).entities.find? (fun e => decide (e.id = i)) = none := by
        rw [List.find?_eq_none]
        intro e' he'
        simp only [decide_eq_true_eq]
        exact hnotin e' he'
      simp only [deleteEntityById, hnone]

/-- Witness for `c6`: the delete of an unknown id is a no-op, and deleting the
one live sphere disposes its mesh exactly once. -/
theorem c6_witness :
    deleteEntityById (applyOps [Op.addSphere] initState) ⟨"cube", 9⟩ =
      applyOps [Op.addSphere] initState ∧
    (deleteEntityById (applyOps [Op.addSphere] initState) ⟨"sphere", 2⟩).disposed.count
      ⟨"sphere", 2⟩ = 1 :=
  ⟨(c6 [Op.addSphere] ⟨"cube", 9⟩).1 (by decide),
   ((c6 [Op.addSphere] ⟨"sphere", 2⟩).2 (by decide)).2.1⟩

/-! ### C7 — selection invariants -/

/-- C7: in every reachable state at most one entity is selected (the state
holds a single optional selection) and a selected id always names a live
entity; selecting an id that names no live entity clears the selection
without error; and the delete operation always leaves the selection
cleared. -/
theorem c7 (ops : List Op) :
    selLive (applyOps ops initState) ∧
    (∀ i, (∀ e ∈ (applyOps ops initState).entities, e.id ≠ i) →
      (selectEntity (applyOps ops initState) (some i)).selected = none) ∧
    (deleteSelected (applyOps ops initState)).selected = none := by
  have hI := inv_applyOps ops
  refine ⟨hI.sel, ?_, ?_⟩
  · intro i hno
    have hfind : (applyOps ops initState).entities.find? (fun e => decide (e.id = i)) = none := by
      rw [List.find?_eq_none]
      intro e he
      simp only [decide_eq_true_eq]
      exact hno e he
    simp [selectEntity, hfind]
  · rcases hs : (applyOps ops initState).selected with _ | i
    · simp only [deleteSelected, hs]
    · rcases hI.sel with hn | ⟨e, he, hse⟩
      · rw [hs] at hn; exact absurd hn (by simp)
      · rw [hs] at hse
        have hie : i = e.id := Option.some.inj hse
        have hsome : ((applyOps ops initState).entities.find?
            (fun e' => decide (e'.id = i))).isSome = true :=
          List.find?_isSome.mpr ⟨e, he, by simp [hie]⟩
        obtain ⟨ent, hf⟩ := Option.isSome_iff_exists.mp hsome
        simp [deleteSelected, hs, hf, removeEntity, selectEntity]

/-- Witness for `c7`: selecting an id that names no live entity clears the
selection. -/
theorem c7_witness :
    (selectEntity (applyOps [Op.addSphere] initState) (some ⟨"light", 7⟩)).selected = none :=
  (c7 [Op.addSphere]).2.1 ⟨"light", 7⟩ (by decide)

/-! ### C3 — codec round trip -/

theorem posQ_true {x : Option ℚ} (h : posQ x = true) : ∃ q, x = some q ∧ 0 < q := by
  cases x with
  | none => simp [posQ] at h
  | some q => exact ⟨q, rfl, by simpa [posQ] using h⟩

theorem nonzeroQ_true {x : Option ℚ} (h : nonzeroQ x = true) : ∃ q, x = some q ∧ q ≠ 0 := by
  cases x with
  | none => simp [nonzeroQ] at h
  | some q => exact ⟨q, rfl, by simpa [nonzeroQ] using h⟩

theorem loadObject_obj_enc (s : EditorState) (o : ObjectRec) (ho : validObjectB o = true) :
    (loadObject s o).entities.filterMap encodeObject =
      s.entities.filterMap encodeObject ++ [o] := by
  cases o with
  | sphere center radius color =>
      simp only [loadObject, generateId, List.filterMap_append]
      congr 1
  | cube mn mx color =>
      simp only [loadObject, generateId, List.filterMap_append]
      congr 1
      simp only [List.filterMap_cons, List.filterMap_nil, encodeObject, colorToArray]
      norm_num
      constructor <;> ext <;> ring
  | unknownType => simp [validObjectB] at ho

theorem loadObject_light_enc (s : EditorState) (o : ObjectRec) :
    (loadObject s o).entities.filterMap encodeLight =
      s.entities.filterMap encodeLight := by
  cases o <;>
    simp [loadObject, generateId, List.filterMap_append, encodeLight]

theorem loadObject_camera (s : EditorState) (o : ObjectRec) :
    (loadObject s o).cameraState = s.cameraState := by
  cases o <;> rfl

theorem foldl_loadObject_enc :
    ∀ (l : List ObjectRec) (s : EditorState), (∀ o ∈ l, validObjectB o = true) →
      ((l.foldl loadObject s).entities.filterMap encodeObject =
        s.entities.filterMap encodeObject ++ l) ∧
      ((l.foldl loadObject s).entities.filterMap encodeLight =
        s.entities.filterMap encodeLight) ∧
      (l.foldl loadObject s).cameraState = s.cameraState := by
  intro l
  induction l with
  | nil => intro s _; simp
  | cons o t ih =>
      intro s h
      have h1 := loadObject_obj_enc s o (h o (by simp))
      have ih' := ih (loadObject s o) (fun o' ho' => h o' (by simp [ho']))
      refine ⟨?_, ?_, ?_⟩
      · rw [List.foldl_cons, ih'.1, h1, List.append_assoc, List.singleton_append]
      · rw [List.foldl_cons, ih'.2.1, loadObject_light_enc]
      · rw [List.foldl_cons, ih'.2.2, loadObject_camera]

theorem loadLight_light_enc (s : EditorState) (l : LightRec) (hl : validLightB l = true) :
    (loadLight s l).entities.filterMap encodeLight =
      s.entities.filterMap encodeLight ++ [l] := by
  cases l with
  | point posq intq dirq =>
      simp only [validLightB, Bool.and_eq_true, and_assoc, Option.isSome_iff_exists] at hl
      obtain ⟨⟨p, hp⟩, ⟨it, hi⟩, ⟨dr, hd⟩⟩ := hl
      subst hp; subst hi; subst hd
      simp only [loadLight, generateId, Option.getD_some, List.filterMap_append]
      congr 1
  | unknownKind => simp [validLightB] at hl

theorem loadLight_obj_enc (s : EditorState) (l : LightRec) :
    (loadLight s l).entities.filterMap encodeObject =
      s.entities.filterMap encodeObject := by
  cases l <;>
    simp [loadLight, generateId, List.filterMap_append, encodeObject]

theorem loadLight_camera (s : EditorState) (l : LightRec) :
    (loadLight s l).cameraState = s.cameraState := by
  cases l <;> rfl

theorem foldl_loadLight_enc :
    ∀ (l : List LightRec) (s : EditorState), (∀ x ∈ l, validLightB x = true) →
      ((l.foldl loadLight s).entities.filterMap encodeObject =
        s.entities.filterMap encodeObject) ∧
      ((l.foldl loadLight s).entities.filterMap encodeLight =
        s.entities.filterMap encodeLight ++ l) ∧
      (l.foldl loadLight s).cameraState = s.cameraState := by
  intro l
  induction l with
  | nil => intro s _; simp
  | cons o t ih =>
      intro s h
      have h1 := loadLight_light_enc s o (h o (by simp))
      have ih' := ih (loadLight s o) (fun o' ho' => h o' (by simp [ho']))
      refine ⟨?_, ?_, ?_⟩
      · rw [List.foldl_cons, ih'.1, loadLight_obj_enc]
      · rw [List.foldl_cons, ih'.2.1, h1, List.append_assoc, List.singleton_append]
      · rw [List.foldl_cons, ih'.2.2, loadLight_camera]

theorem buildSceneJson_selectEntity (s : EditorState) (i : Option EntityId) :
    buildSceneJson (selectEntity s i) = buildSceneJson s := by
  simp [buildSceneJson, selectEntity_entities, selectEntity_cameraState]

theorem buildSceneJson_finishLoad (s : EditorState) (camq : Option CameraRec)
    (objs : List ObjectRec) (lits : List LightRec)
    (hse : s.entities = [])
    (hobjs : ∀ o ∈ objs, validObjectB o = true)
    (hlits : ∀ l ∈ lits, validLightB l = true) :
    buildSceneJson (finishLoad s ⟨camq, objs, lits⟩) =
      ⟨some ⟨some s.cameraState.position, some s.cameraState.lookAt, some s.cameraState.up,
        some s.cameraState.fov, some s.cameraState.width, some s.cameraState.height⟩,
        objs, lits⟩ := by
  have hobj := foldl_loadObject_enc objs s hobjs
  have hlit := foldl_loadLight_enc lits (objs.foldl loadObject s) hlits
  have hcore : buildSceneJson (lits.foldl loadLight (objs.foldl loadObject s)) =
      ⟨some ⟨some s.cameraState.position, some s.cameraState.lookAt, some s.cameraState.up,
        some s.cameraState.fov, some s.cameraState.width, some s.cameraState.height⟩,
        objs, lits⟩ := by
    have hc : (lits.foldl loadLight (objs.foldl loadObject s)).cameraState = s.cameraState := by
      rw [hlit.2.2, hobj.2.2]
    have ho : (lits.foldl loadLight (objs.foldl loadObject s)).entities.filterMap
        encodeObject = objs := by
      rw [hlit.1, hobj.1, hse]
      simp
    have hl : (lits.foldl loadLight (objs.foldl loadObject s)).entities.filterMap
        encodeLight = lits := by
      rw [hlit.2.1, hobj.2.1, hse]
      simp
    simp only [buildSceneJson, hc, ho, hl]
  simp only [finishLoad]
  rcases hq : (lits.foldl loadLight (objs.foldl loadObject s)).entities.getLast? with _ | e <;>
    simp only [hq] <;>
    rw [buildSceneJson_selectEntity] <;>
    exact hcore

theorem loadCameraState_valid (cs : CameraState) (p la u : V3) (f w h : ℚ)
    (hf : f ≠ 0) (hw : 0 < w) (hh : 0 < h) :
    loadCameraState cs ⟨some p, some la, some u, some f, some w, some h⟩ =
      ({ position := p, lookAt := la, up := u, fov := f, width := w, height := h }, false) := by
  simp only [loadCameraState]
  rw [if_pos hf, if_pos hw.ne', if_pos hh.ne']

/-- C3: decoding a valid scene document (complete camera block with nonzero
fov and positive width/height, sphere/cube object records, complete
point-light records) into the registry and re-encoding reproduces the
document exactly — in
particular a cube given by min/max corners decodes to center `(min+max)/2`
and extents `max-min` and re-encodes to the same corners; the rational model
makes the round trip exact, which implies the claim's floating-point
tolerance. -/
theorem c3 (s : EditorState) (d : SceneDoc) (hv : validDocB d = true) :
    buildSceneJson (loadSceneFromJson s d).1 = d ∧
    (loadSceneFromJson s d).2 = false := by
  obtain ⟨camq, objs, lits⟩ := d
  simp only [validDocB, Bool.and_eq_true, and_assoc] at hv
  rcases camq with _ | cam
  · exact absurd hv.1 (by simp)
  obtain ⟨hcam, hobjs, hlits⟩ := hv
  obtain ⟨pos, la, upq, fovq, wq, hq⟩ := cam
  simp only [validCameraB, Bool.and_eq_true, and_assoc] at hcam
  obtain ⟨h1, h2, h3, h4, h5, h6⟩ := hcam
  obtain ⟨p, hp⟩ := Option.isSome_iff_exists.mp h1
  obtain ⟨l0, hl0⟩ := Option.isSome_iff_exists.mp h2
  obtain ⟨u, hu⟩ := Option.isSome_iff_exists.mp h3
  obtain ⟨f, hf, hfne⟩ := nonzeroQ_true h4
  obtain ⟨w, hw, hwpos⟩ := posQ_true h5
  obtain ⟨ht, hht, hhtpos⟩ := posQ_true h6
  subst hp; subst hl0; subst hu; subst hf; subst hw; subst hht
  simp only [loadSceneFromJson]
  rw [loadCameraState_valid _ p l0 u f w ht hfne hwpos hhtpos]
  have hse : ({ clearEntities s with cameraState :=
      { position := p, lookAt := l0, up := u, fov := f, width := w, height := ht } }
        : EditorState).entities = [] := clearEntities_entities s
  have hfin := buildSceneJson_finishLoad
    { clearEntities s with cameraState :=
      { position := p, lookAt := l0, up := u, fov := f, width := w, height := ht } }
    (some ⟨some p, some l0, some u, some f, some w, some ht⟩) objs lits hse
    (List.all_eq_true.mp hobjs) (List.all_eq_true.mp hlits)
  exact ⟨hfin, rfl⟩

/-- Witness for `c3`: the spec's Scenario B document round-trips exactly. -/
theorem c3_witness :
    buildSceneJson (loadSceneFromJson initState
      ⟨some ⟨some ⟨0, 0, -5⟩, some ⟨0, 0, 0⟩, some ⟨0, 1, 0⟩, some 60, some 400, some 300⟩,
        [.cube ⟨-2, -1, 3⟩ ⟨-1, 1, 4⟩ ⟨1/5, 1/5, 1⟩], []⟩).1 =
      ⟨some ⟨some ⟨0, 0, -5⟩, some ⟨0, 0, 0⟩, some ⟨0, 1, 0⟩, some 60, some 400, some 300⟩,
        [.cube ⟨-2, -1, 3⟩ ⟨-1, 1, 4⟩ ⟨1/5, 1/5, 1⟩], []⟩ ∧
    (loadSceneFromJson initState
      ⟨some ⟨some ⟨0, 0, -5⟩, some ⟨0, 0, 0⟩, some ⟨0, 1, 0⟩, some 60, some 400, some 300⟩,
        [.cube ⟨-2, -1, 3⟩ ⟨-1, 1, 4⟩ ⟨1/5, 1/5, 1⟩], []⟩).2 = false :=
  c3 initState _ (by decide)

/-! ### C10 — present-but-zero optional camera fields -/

/-- C10: during import a camera `fov`, `width` or `height` field equal to 0 is
treated exactly like a missing field (zero is falsy), and in particular the
prior fov is kept. -/
theorem c10 (cs : CameraState) (cam : CameraRec) :
    loadCameraState cs { cam with fov := some 0 } =
      loadCameraState cs { cam with fov := none } ∧
    loadCameraState cs { cam with width := some 0 } =
      loadCameraState cs { cam with width := none } ∧
    loadCameraState cs { cam with height := some 0 } =
      loadCameraState cs { cam with height := none } ∧
    ∀ p la, (loadCameraState cs
      { cam with position := some p, look_at := some la, fov := some 0 }).1.fov = cs.fov := by
  obtain ⟨pos, la, up, fov, w, h⟩ := cam
  refine ⟨?_, ?_, ?_, ?_⟩ <;>
  · cases pos <;> cases la <;> cases up <;> cases fov <;> cases w <;> cases h <;>
      simp [loadCameraState] <;> split_ifs <;> simp_all

end RayEdit
